import Mathlib

/-!
# SketchQL core: canonical schema model, validator, diff engine, migration engine

Shallow embedding of the SketchQL backend services:

* `validateSchema`      — backend/services/schemaRefactorService.js
* `computeDiff`         — backend/services/versionService.js
* `migrateSchema` and the type-mapping tables — backend/services/migrationService.js
* `parseModels` (multi-file merge) — backend/services/githubParserService.js

JavaScript strings are Lean `String`; JS `Map` built from a list of
keyed values (last insertion wins on duplicate keys) is modelled by
`jsMapGet`; a JS thrown exception is `Except.error`; the external
generative-AI collaborator call is a parameter `ai : Option MigrationResult`
(`none` = transport failure or shape-validation failure of the response).
Numbers that are only ever integral in the code (positions, counters)
are `Int`/`Nat`.
-/

/-- Contiguous-sublist test on lists of characters. -/
def hasSubList (sub : List Char) : List Char → Bool
  | [] => sub.isEmpty
  | c :: rest => sub.isPrefixOf (c :: rest) || hasSubList sub rest

/-- JS `String.prototype.includes(sub)`: contiguous substring test. -/
def jsIncludes (s sub : String) : Bool :=
  hasSubList sub.toList s.toList

/-- JS `String.prototype.toLowerCase()` (ASCII, which is all the code uses). -/
def jsLower (s : String) : String :=
  ⟨s.data.map Char.toLower⟩

/-- JS `String.prototype.toUpperCase()` (ASCII, which is all the code uses). -/
def jsUpper (s : String) : String :=
  ⟨s.data.map Char.toUpper⟩

/-- Core of JS `String.prototype.replace(pat, emptyString)` on lists of
characters: remove the first occurrence of `pat` (JS `replace` with a
string pattern replaces only the first occurrence). -/
def removeFirstL (pat : List Char) : List Char → List Char
  | [] => []
  | c :: rest =>
    if pat.isPrefixOf (c :: rest) then (c :: rest).drop pat.length
    else c :: removeFirstL pat rest

/-- JS `s.replace(pat, emptyString)` for a plain-string `pat`. -/
def removeFirst (pat s : String) : String :=
  ⟨removeFirstL pat.toList s.toList⟩

/-- Core of JS whitespace squashing (global regex replace of each
whitespace run by an underscore): every maximal run of whitespace
becomes a single underscore.  The flag records whether the previous
character was whitespace (i.e. we are inside a run already squashed). -/
def squashWsAux (inWs : Bool) : List Char → List Char
  | [] => []
  | c :: rest =>
    if c.isWhitespace then
      (if inWs then [] else ['_']) ++ squashWsAux true rest
    else c :: squashWsAux false rest

/-- JS global replacement of every whitespace run by an underscore. -/
def squashWs (s : String) : String :=
  ⟨squashWsAux false s.toList⟩

/-- First-match lookup in an association list (JS plain-object property
read `obj[key]`, where the embedded object literals have unique keys). -/
def assocLookup (m : List (String × α)) (k : String) : Option α :=
  (m.find? (fun p => p.1 = k)).map (·.2)

/-! ## The canonical schema model (React Flow nodes/edges) -/

/-- One column of a table node (`data.columns[i]`). -/
structure Column where
  name : String
  type : String
  isPK : Bool
  isNullable : Bool
  isUnique : Bool
deriving DecidableEq

/-- The `data` field of a node: display label plus columns. -/
structure NodeData where
  label : String
  columns : List Column
deriving DecidableEq

/-- A React Flow node (one entity/table). `position` is the opaque layout
hint; the code only ever stores integral coordinates. -/
structure Node where
  id : String
  type : String
  position : Int × Int
  data : NodeData
deriving DecidableEq

/-- A React Flow edge (one relationship). `label` is `edge.data.label`
(the cardinality tag). -/
structure Edge where
  id : String
  source : String
  target : String
  sourceHandle : String
  targetHandle : String
  type : String
  label : String
deriving DecidableEq

/-- A schema: `{ nodes: [...], edges: [...] }`. -/
structure Schema where
  nodes : List Node
  edges : List Edge
deriving DecidableEq

/-! ## Validator — schemaRefactorService.js `validateSchema`

The JS function first checks `schema` is an object and `nodes`/`edges`
are arrays; in the typed embedding those checks hold by construction.
The remaining checks are per-node, first failure wins.  `!s` on a JS
string is true exactly for the empty string.  The error strings elide
the JS quotation marks around field names. -/

/-- Per-column check: `if (!col.name || !col.type)`. -/
def columnError (col : Column) : Option String :=
  if col.name = "" ∨ col.type = "" then
    some "Each column must have name and type"
  else none

/-- Per-node check: `if (!node.id || !node.data || !node.data.label)`,
then `Array.isArray(node.data.columns)` (holds by typing), then each
column in order. -/
def nodeError (node : Node) : Option String :=
  if node.id = "" ∨ node.data.label = "" then
    some "Each node must have id, data.label"
  else node.data.columns.findSome? columnError

/-- Function `validateSchema`: the result `none` models a valid
verdict, `some e` models an invalid verdict carrying error `e`. -/
def validateSchema (schema : Schema) : Option String :=
  schema.nodes.findSome? nodeError

/-! ## Structural diff — versionService.js `computeDiff`

`new Map(schema.nodes.map(n => [n.id, n]))` keeps the **last** entry for
a duplicated key; `jsMapGet` models `.get` and its `isSome` models
`.has`.  `JSON.stringify(x) !== JSON.stringify(y)` on the embedded
record types is inequality of the records (the serializer is injective
on them: fixed field order, fixed shapes). -/

/-- Lookup modelling `.get` on a JS `Map` built from the node list,
keyed by `id` (last insertion wins). -/
def jsMapGet (nodes : List Node) (i : String) : Option Node :=
  nodes.reverse.find? (fun n => n.id = i)

/-- Edge key used by `computeDiff`: `` `${e.source}-${e.target}` ``. -/
def edgeKey (e : Edge) : String :=
  e.source ++ "-" ++ e.target

/-- Lookup modelling `.get` on a JS `Map` built from the edge list,
keyed by `edgeKey` (last insertion wins). -/
def jsEdgeMapGet (edges : List Edge) (k : String) : Option Edge :=
  edges.reverse.find? (fun e => edgeKey e = k)

/-- One entry of `diff.nodes.modified`. -/
structure ModifiedNode where
  id : String
  original : Node
  modified : Node
deriving DecidableEq

/-- One entry of `diff.edges.modified`. -/
structure ModifiedEdge where
  original : Edge
  modified : Edge
deriving DecidableEq

/-- The diff object returned by `computeDiff`. -/
structure Diff where
  nodesAdded : List Node
  nodesRemoved : List Node
  nodesModified : List ModifiedNode
  edgesAdded : List Edge
  edgesRemoved : List Edge
  edgesModified : List ModifiedEdge
deriving DecidableEq

/-- Function `computeDiff`.  Each `forEach`-with-`push` loop is
the corresponding `filter`/`filterMap` over the same list in the same
order. -/
def computeDiff (schema1 schema2 : Schema) : Diff :=
  { nodesRemoved :=
      schema1.nodes.filter (fun node => (jsMapGet schema2.nodes node.id).isNone)
  , nodesAdded :=
      schema2.nodes.filter (fun node => (jsMapGet schema1.nodes node.id).isNone)
  , nodesModified :=
      schema2.nodes.filterMap (fun node =>
        match jsMapGet schema1.nodes node.id with
        | none => none
        | some node1 =>
          if node1.data = node.data then none
          else some { id := node.id, original := node1, modified := node })
  , edgesRemoved :=
      schema1.edges.filter (fun edge => (jsEdgeMapGet schema2.edges (edgeKey edge)).isNone)
  , edgesAdded :=
      schema2.edges.filter (fun edge => (jsEdgeMapGet schema1.edges (edgeKey edge)).isNone)
  , edgesModified :=
      schema2.edges.filterMap (fun edge =>
        match jsEdgeMapGet schema1.edges (edgeKey edge) with
        | none => none
        | some edge1 =>
          if edge1 = edge then none
          else some { original := edge1, modified := edge }) }

/-! ## Migration engine — migrationService.js

`TYPE_MAPPINGS[src].to[tgt]` is a two-level association-list lookup.
The tables are transcribed verbatim from the source. -/

/-- Table `TYPE_MAPPINGS`, flattened as source-dialect → (target-dialect →
(source-type → target-type)). -/
def TYPE_MAPPINGS : List (String × List (String × List (String × String))) :=
  [ ("mongo",
      [ ("postgres",
          [ ("String", "VARCHAR(255)"), ("Number", "INTEGER"),
            ("Date", "TIMESTAMP"), ("Boolean", "BOOLEAN"),
            ("ObjectId", "UUID"), ("Array", "JSONB"),
            ("Object", "JSONB"), ("Mixed", "TEXT") ])
      , ("mysql",
          [ ("String", "VARCHAR(255)"), ("Number", "INT"),
            ("Date", "DATETIME"), ("Boolean", "TINYINT(1)"),
            ("ObjectId", "VARCHAR(36)"), ("Array", "JSON"),
            ("Object", "JSON"), ("Mixed", "TEXT") ])
      , ("sql",
          [ ("String", "NVARCHAR(255)"), ("Number", "INT"),
            ("Date", "DATETIME2"), ("Boolean", "BIT"),
            ("ObjectId", "UNIQUEIDENTIFIER"), ("Array", "NVARCHAR(MAX)"),
            ("Object", "NVARCHAR(MAX)"), ("Mixed", "NVARCHAR(MAX)") ]) ])
  , ("postgres",
      [ ("mongo",
          [ ("VARCHAR", "String"), ("TEXT", "String"),
            ("INTEGER", "Number"), ("BIGINT", "Number"),
            ("SMALLINT", "Number"), ("DECIMAL", "Number"),
            ("NUMERIC", "Number"), ("REAL", "Number"),
            ("DOUBLE PRECISION", "Number"), ("BOOLEAN", "Boolean"),
            ("DATE", "Date"), ("TIMESTAMP", "Date"),
            ("TIMESTAMPTZ", "Date"), ("UUID", "ObjectId"),
            ("JSONB", "Object"), ("JSON", "Object"), ("ARRAY", "Array") ])
      , ("mysql",
          [ ("VARCHAR", "VARCHAR"), ("TEXT", "TEXT"),
            ("INTEGER", "INT"), ("BIGINT", "BIGINT"),
            ("SMALLINT", "SMALLINT"), ("DECIMAL", "DECIMAL"),
            ("NUMERIC", "DECIMAL"), ("REAL", "FLOAT"),
            ("DOUBLE PRECISION", "DOUBLE"), ("BOOLEAN", "TINYINT(1)"),
            ("DATE", "DATE"), ("TIMESTAMP", "DATETIME"),
            ("TIMESTAMPTZ", "DATETIME"), ("UUID", "VARCHAR(36)"),
            ("JSONB", "JSON"), ("JSON", "JSON"), ("ARRAY", "JSON") ]) ])
  , ("mysql",
      [ ("mongo",
          [ ("VARCHAR", "String"), ("TEXT", "String"),
            ("INT", "Number"), ("BIGINT", "Number"),
            ("SMALLINT", "Number"), ("DECIMAL", "Number"),
            ("FLOAT", "Number"), ("DOUBLE", "Number"),
            ("TINYINT(1)", "Boolean"), ("BOOLEAN", "Boolean"),
            ("DATE", "Date"), ("DATETIME", "Date"),
            ("TIMESTAMP", "Date"), ("JSON", "Object"), ("CHAR", "String") ])
      , ("postgres",
          [ ("VARCHAR", "VARCHAR"), ("TEXT", "TEXT"),
            ("INT", "INTEGER"), ("BIGINT", "BIGINT"),
            ("SMALLINT", "SMALLINT"), ("DECIMAL", "DECIMAL"),
            ("FLOAT", "REAL"), ("DOUBLE", "DOUBLE PRECISION"),
            ("TINYINT(1)", "BOOLEAN"), ("BOOLEAN", "BOOLEAN"),
            ("DATE", "DATE"), ("DATETIME", "TIMESTAMP"),
            ("TIMESTAMP", "TIMESTAMP"), ("JSON", "JSONB"), ("CHAR", "CHAR") ]) ]) ]

/-- Optional-chained double lookup into `TYPE_MAPPINGS` — the type
table for a dialect pair, when it exists. -/
def lookupPair (src tgt : String) : Option (List (String × String)) :=
  (assocLookup TYPE_MAPPINGS src).bind (fun toTable => assocLookup toTable tgt)

/-- Function `normalizeDbType`. -/
def normalizeDbType (dbType : String) : String :=
  let normalized := jsLower dbType
  if jsIncludes normalized "mongo" then "mongo"
  else if jsIncludes normalized "postgres" ∨ jsIncludes normalized "postgresql" then "postgres"
  else if jsIncludes normalized "mysql" then "mysql"
  else if jsIncludes normalized "sql" ∧ ¬ jsIncludes normalized "mysql" then "sql"
  else normalized

/-- Function `needsAIAssistance`. -/
def needsAIAssistance (schema : Schema) (sourceType targetType : String) : Bool :=
  if sourceType = "mongo" ∨ targetType = "mongo" then true
  else if schema.edges.length > 10 ∨ schema.nodes.length > 15 then true
  else false

/-- The `useAI` decision of `migrateSchema` (line 146 of the source):
`!hasDirectMapping || needsAIAssistance(schema, src, tgt)`. -/
def useAI (schema : Schema) (normalizedSource normalizedTarget : String) : Bool :=
  !(lookupPair normalizedSource normalizedTarget).isSome
    || needsAIAssistance schema normalizedSource normalizedTarget

/-- One entry of the `mappingSummary` array. -/
structure MappingEntry where
  table : String
  column : String
  sourceType : String
  targetType : String
  reason : String
deriving DecidableEq

/-- The `{ targetDDL, mappingSummary }` result object of a migration. -/
structure MigrationResult where
  targetDDL : String
  mappingSummary : List MappingEntry
deriving DecidableEq

/-- Table naming: `node.data.label` lowercased, whitespace runs
replaced by underscores. -/
def tableNameOf (label : String) : String :=
  squashWs (jsLower label)

/-- The column-type computation of `migrateWithMapping`: look the
uppercased column type up in the mapping table, defaulting (JS falsy
fallback) to the generic `VARCHAR(255)`, then apply the primary-key
identity-idiom override. -/
def mappedTypeFor (mapping : List (String × String)) (targetType : String)
    (col : Column) : String :=
  let looked :=
    match assocLookup mapping (jsUpper col.type) with
    | some v => if v = "" then "VARCHAR(255)" else v
    | none => "VARCHAR(255)"
  if col.isPK then
    if targetType = "postgres" then "SERIAL"
    else if targetType = "mysql" then "INT AUTO_INCREMENT"
    else if targetType = "sql" then "INT IDENTITY(1,1)"
    else "INT"
  else looked

/-- One rendered column definition: two spaces, the column name, a
space, the mapped type, plus ` NOT NULL` when the column is
non-nullable and not a primary key. -/
def colDefFor (mapping : List (String × String)) (targetType : String)
    (col : Column) : String :=
  "  " ++ col.name ++ " " ++ mappedTypeFor mapping targetType col
    ++ (if !col.isNullable && !col.isPK then " NOT NULL" else "")

/-- One `mappingSummary` entry per column. -/
def summaryEntryFor (mapping : List (String × String)) (targetType : String)
    (node : Node) (col : Column) : MappingEntry :=
  { table := node.data.label
  , column := col.name
  , sourceType := jsUpper col.type
  , targetType := mappedTypeFor mapping targetType col
  , reason := "Direct type mapping" }

/-- The `UNIQUE (...)` constraints pushed while iterating the columns:
`if (col.isUnique && !col.isPK) constraints.push(...)`. -/
def uniqueConstraintsOf (cols : List Column) : List String :=
  cols.filterMap (fun col =>
    if col.isUnique && !col.isPK then some ("  UNIQUE (" ++ col.name ++ ")")
    else none)

/-- The foreign-key constraint contributed by one edge while rendering
`node` (lines 239–249): only edges whose `source` is this node, and only
when the target node resolves; handle suffixes are stripped with JS
first-occurrence `replace`. -/
def fkFor (schema : Schema) (node : Node) (edge : Edge) : Option String :=
  if edge.source = node.id then
    let sourceHandle := removeFirst "-left" (removeFirst "-right" edge.sourceHandle)
    match schema.nodes.find? (fun n => n.id = edge.target) with
    | some targetNode =>
      let targetTable := tableNameOf targetNode.data.label
      let targetCol := removeFirst "-right" (removeFirst "-left" edge.targetHandle)
      some ("  FOREIGN KEY (" ++ sourceHandle ++ ") REFERENCES "
              ++ targetTable ++ "(" ++ targetCol ++ ")")
    | none => none
  else none

/-- The full `constraints` array for one node: the `UNIQUE` constraints
collected during the column loop, then the foreign keys from the edge
loop, in source order. -/
def constraintsOf (schema : Schema) (node : Node) : List String :=
  uniqueConstraintsOf node.data.columns ++ schema.edges.filterMap (fkFor schema node)

/-- One `CREATE TABLE` statement for one node. -/
def renderNode (schema : Schema) (mapping : List (String × String))
    (targetType : String) (node : Node) : String :=
  let columns := node.data.columns.map (colDefFor mapping targetType)
  let constraints := constraintsOf schema node
  "CREATE TABLE " ++ tableNameOf node.data.label ++ " (\n"
    ++ String.intercalate ",\n" columns
    ++ (if constraints.length > 0 then ",\n" ++ String.intercalate ",\n" constraints else "")
    ++ "\n);\n"

/-- The success value of `migrateWithMapping`: DDL statements joined
with a newline, and the summary entries in column order node by node. -/
def migrateBody (schema : Schema) (mapping : List (String × String))
    (targetType : String) : MigrationResult :=
  { targetDDL := String.intercalate "\n" (schema.nodes.map (renderNode schema mapping targetType))
  , mappingSummary :=
      (schema.nodes.map (fun node =>
        node.data.columns.map (summaryEntryFor mapping targetType node))).flatten }

/-- Function `migrateWithMapping`.
`TYPE_MAPPINGS[sourceType].to` throws (`TypeError`) when the source
dialect has no table at all; when only the target is missing,
`mapping` is `undefined` and the JS code throws at the first
`mapping[sourceType]` read, which happens iff some node has a column —
otherwise the column loop never reads `mapping` and the function
succeeds, producing output independent of `mapping` (rendered here with
the empty table, which those nodes never consult). -/
def migrateWithMapping (schema : Schema) (sourceType targetType : String) :
    Except String MigrationResult :=
  match assocLookup TYPE_MAPPINGS sourceType with
  | none => .error "TypeError"
  | some toTable =>
    match assocLookup toTable targetType with
    | some mapping => .ok (migrateBody schema mapping targetType)
    | none =>
      if schema.nodes.any (fun node => !node.data.columns.isEmpty) then
        .error "TypeError"
      else .ok (migrateBody schema [] targetType)

/-- Function `migrateWithAI` with the external
generative call abstracted into `ai` (`some r` = transport success and
shape validation passed, yielding `r`; `none` = failure of either).
The catch-block falls back to `migrateWithMapping`. -/
def migrateWithAI (ai : Option MigrationResult) (schema : Schema)
    (sourceType targetType : String) : Except String MigrationResult :=
  match ai with
  | some r => .ok r
  | none => migrateWithMapping schema sourceType targetType

/-- The outer `try`/`catch` of `migrateSchema`: any thrown message is
re-wrapped under the `Failed to migrate schema` message. -/
def wrapMigrate (res : Except String MigrationResult) : Except String MigrationResult :=
  match res with
  | .ok r => .ok r
  | .error e => .error ("Failed to migrate schema: " ++ e)

/-- Function `migrateSchema`. -/
def migrateSchema (ai : Option MigrationResult) (schema : Schema)
    (sourceDbType targetDbType : String) : Except String MigrationResult :=
  let normalizedSource := normalizeDbType sourceDbType
  let normalizedTarget := normalizeDbType targetDbType
  wrapMigrate
    (if normalizedSource = normalizedTarget then
      .error "Source and target database types cannot be the same"
    else if useAI schema normalizedSource normalizedTarget then
      migrateWithAI ai schema normalizedSource normalizedTarget
    else
      migrateWithMapping schema normalizedSource normalizedTarget)

/-! ## Multi-file ingestion merge — githubParserService.js `parseModels`

`detectParserType` plus the parse method of the selected parser is a pure
function of the file content; it is abstracted as the parameter
`parseOf : String → Option Schema` (`none` models an unrecognized file,
which is skipped with a warning).  The merge loop itself — entity
de-duplication by display label, fresh id allocation `table_<counter>`,
position layout, and edge endpoint re-mapping through `nodeIdMap` with
`|| edge.source` fallback — is transcribed from lines 253–312. -/

/-- One ingested file. -/
structure IngestFile where
  path : String
  content : String
deriving DecidableEq

/-- The accumulator of the `files.forEach` loop of `parseModels`. -/
structure MergeState where
  allNodes : List Node
  allEdges : List Edge
  nodeIdMap : List (String × String)
  nodeCounter : Nat

/-- The inner `nodes.forEach` loop body: skip a node whose display label
is already present, otherwise append it under a fresh id and grid
position and record `label → id`. -/
def mergeNodes (st : MergeState) (nodes : List Node) : MergeState :=
  nodes.foldl (fun st node =>
    if st.allNodes.any (fun n => n.data.label = node.data.label) then st
    else
      let newId := "table_" ++ toString st.nodeCounter
      let len : Int := Int.ofNat st.allNodes.length
      let newNode : Node :=
        { node with id := newId, position := ((len % 3) * 400, (len / 3) * 300) }
      { st with
          allNodes := st.allNodes ++ [newNode]
          nodeIdMap := st.nodeIdMap ++ [(node.data.label, newId)]
          nodeCounter := st.nodeCounter + 1 }) st

/-- The `edges.forEach` loop body: re-map each endpoint through
`nodeIdMap` when it resolves, otherwise keep it verbatim
(`nodeIdMap.get(edge.source) || edge.source`). -/
def mergeEdges (st : MergeState) (edges : List Edge) : MergeState :=
  { st with
      allEdges := st.allEdges ++ edges.map (fun edge =>
        { edge with
            source := (assocLookup st.nodeIdMap edge.source).getD edge.source
            target := (assocLookup st.nodeIdMap edge.target).getD edge.target }) }

/-- One iteration of the `files.forEach` loop. -/
def mergeFile (parseOf : String → Option Schema) (st : MergeState)
    (file : IngestFile) : MergeState :=
  match parseOf file.content with
  | none => st
  | some frag => mergeEdges (mergeNodes st frag.nodes) frag.edges

/-- Function `parseModels` (with the per-file parser abstracted). -/
def parseModels (parseOf : String → Option Schema) (files : List IngestFile) : Schema :=
  let st := files.foldl (mergeFile parseOf) ⟨[], [], [], 1⟩
  { nodes := st.allNodes, edges := st.allEdges }

/-! ## Concrete fixtures used by counterexamples and witnesses -/

/-- Integer primary-key column `id`. -/
def pkIdCol : Column := ⟨"id", "INT", true, false, false⟩

/-- Unique non-nullable `email` column. -/
def emailCol : Column := ⟨"email", "VARCHAR", false, false, true⟩

/-- Column of a type absent from every mapping table. -/
def geoCol : Column := ⟨"shape", "GEOMETRY", false, true, false⟩

/-- Foreign-key column `user_id`. -/
def userIdCol : Column := ⟨"user_id", "INT", false, false, false⟩

/-- Node for the `User` table. -/
def userNode : Node := ⟨"table_1", "tableNode", (0, 0), ⟨"User", [pkIdCol, emailCol]⟩⟩

/-- Node for the `Order` table. -/
def orderNode : Node := ⟨"table_2", "tableNode", (400, 0), ⟨"Order", [pkIdCol, userIdCol, geoCol]⟩⟩

/-- Relationship `Order.user_id → User.id`. -/
def orderUserEdge : Edge := ⟨"e1", "table_2", "table_1", "user_id-right", "id-left", "step", "N:1"⟩

/-- Two-table demo schema. -/
def demoSchema : Schema := ⟨[userNode, orderNode], [orderUserEdge]⟩

/-- An edge whose target id `ghost` matches no entity. -/
def ghostEdge : Edge := ⟨"e2", "table_1", "ghost", "id-right", "id-left", "step", "1:N"⟩

/-- A schema whose single relationship dangles. -/
def danglingSchema : Schema := ⟨[userNode], [ghostEdge]⟩

/-- A well-formed node carrying zero attributes. -/
def emptyColsNode : Node := ⟨"table_1", "tableNode", (0, 0), ⟨"Empty", []⟩⟩

/-- A schema with an entity having an empty attribute set. -/
def emptyColsSchema : Schema := ⟨[emptyColsNode], []⟩

/-- A node as a parser fragment emits it (label `A`). -/
def fragNodeA : Node := ⟨"table_1", "tableNode", (0, 0), ⟨"A", []⟩⟩

/-- A node as a parser fragment emits it (label `B`). -/
def fragNodeB : Node := ⟨"table_1", "tableNode", (0, 0), ⟨"B", []⟩⟩

/-- A candidate relationship whose endpoint labels resolve to no node. -/
def ghostFragEdge : Edge := ⟨"e9", "Ghost", "Phantom", "a-right", "b-left", "step", "1:N"⟩

/-- Concrete per-file parser: content `"A"`/`"B"` yields one node of
that label, content `"X"` yields a lone unresolvable relationship,
anything else is unrecognized. -/
def demoParse : String → Option Schema := fun content =>
  if content = "A" then some ⟨[fragNodeA], []⟩
  else if content = "B" then some ⟨[fragNodeB], []⟩
  else if content = "X" then some ⟨[], [ghostFragEdge]⟩
  else none

/-- File containing model `A`. -/
def fileA : IngestFile := ⟨"a.prisma", "A"⟩

/-- File containing model `B`. -/
def fileB : IngestFile := ⟨"b.prisma", "B"⟩

/-- File containing only the unresolvable relationship. -/
def fileX : IngestFile := ⟨"x.js", "X"⟩

/-- Node `User`, original snapshot position. -/
def posNode1 : Node := ⟨"t1", "tableNode", (0, 0), ⟨"User", [pkIdCol]⟩⟩

/-- Same `User` node moved on the canvas (`data` untouched). -/
def posNode2 : Node := ⟨"t1", "tableNode", (5, 7), ⟨"User", [pkIdCol]⟩⟩

/-! ## Helper lemmas -/

/-- Membership characterization of the JS node map. -/
theorem jsMapGet_isSome_iff (nodes : List Node) (i : String) :
    (jsMapGet nodes i).isSome ↔ ∃ n ∈ nodes, n.id = i := by
  simp [jsMapGet, List.find?_isSome]

/-- What a successful JS node-map lookup returns. -/
theorem jsMapGet_eq_some (nodes : List Node) (i : String) (n : Node)
    (h : jsMapGet nodes i = some n) : n ∈ nodes ∧ n.id = i := by
  refine ⟨List.mem_reverse.mp (List.mem_of_find?_eq_some h), ?_⟩
  simpa using List.find?_some h

/-! ## C1 — validator and dangling relationships -/

/-- C1 (counterexample): `danglingSchema` has one relationship whose
target id matches no entity, yet `validateSchema` accepts it — the
validator never rejects a model for a dangling relationship. -/
theorem dangling_relationship_accepted :
    (danglingSchema.edges.all fun e => danglingSchema.nodes.all fun n => n.id ≠ e.target) = true
    ∧ danglingSchema.edges ≠ []
    ∧ validateSchema danglingSchema = none := by
  decide

/-- C1 (amended): `validateSchema` never inspects the relationships —
its result is a function of the entities alone, so a model containing a
relationship that points to a non-existent entity id is accepted
whenever its entities pass the per-entity checks. -/
theorem validateSchema_independent_of_edges (nodes : List Node) (edges1 edges2 : List Edge) :
    validateSchema ⟨nodes, edges1⟩ = validateSchema ⟨nodes, edges2⟩ := rfl

/-! ## C3 — diff swap symmetry -/

/-- C3: swapping the two inputs of `computeDiff` swaps the added and
removed collections, for entities and for relationships — they are
equal even as lists (hence as sets). -/
theorem computeDiff_swap_symmetry (A B : Schema) :
    (computeDiff A B).nodesAdded = (computeDiff B A).nodesRemoved
    ∧ (computeDiff A B).nodesRemoved = (computeDiff B A).nodesAdded
    ∧ (computeDiff A B).edgesAdded = (computeDiff B A).edgesRemoved
    ∧ (computeDiff A B).edgesRemoved = (computeDiff B A).edgesAdded :=
  ⟨rfl, rfl, rfl, rfl⟩

/-! ## C9 — validator on empty ids and empty attribute sets -/

/-- C9 (counterexample): an entity with a zero-attribute set passes
`validateSchema` — only the presence of the columns array is checked,
so the claim that such a model is rejected is false. -/
theorem zero_attribute_entity_accepted :
    emptyColsNode.data.columns = [] ∧ emptyColsNode ∈ emptyColsSchema.nodes
    ∧ validateSchema emptyColsSchema = none := by
  decide

/-- C9 (amended): the validator rejects every model containing an
entity with an empty id (returning a validation error), but a model
whose entities have non-empty id and label and well-formed columns is
accepted even when an entity has zero attributes. -/
theorem validator_empty_id_and_wellformed :
    (∀ s : Schema, (∃ n ∈ s.nodes, n.id = "") → validateSchema s ≠ none)
    ∧ (∀ s : Schema,
        (∀ n ∈ s.nodes, n.id ≠ "" ∧ n.data.label ≠ ""
          ∧ ∀ c ∈ n.data.columns, c.name ≠ "" ∧ c.type ≠ "") →
        validateSchema s = none) := by
  constructor
  · rintro s ⟨n, hn, hid⟩ hval
    rw [validateSchema, List.findSome?_eq_none_iff] at hval
    have h := hval n hn
    simp [nodeError, hid] at h
  · intro s h
    rw [validateSchema, List.findSome?_eq_none_iff]
    intro n hn
    obtain ⟨h1, h2, h3⟩ := h n hn
    rw [nodeError, if_neg (by simp [h1, h2]), List.findSome?_eq_none_iff]
    intro c hc
    obtain ⟨hc1, hc2⟩ := h3 c hc
    simp [columnError, hc1, hc2]

/-- C9 (witness): the empty-id rejection applied to a concrete one-node
schema, and the acceptance applied to the concrete zero-attribute
schema. -/
theorem validator_empty_id_and_wellformed_witness :
    validateSchema ⟨[⟨"", "tableNode", (0, 0), ⟨"X", []⟩⟩], []⟩ ≠ none
    ∧ validateSchema emptyColsSchema = none :=
  ⟨validator_empty_id_and_wellformed.1 _
      ⟨⟨"", "tableNode", (0, 0), ⟨"X", []⟩⟩, by decide, rfl⟩,
   validator_empty_id_and_wellformed.2 _ (by decide)⟩

/-! ## C10 — diff decides entity changes from `data` only -/

/-- C10: when every node of either schema has an id-mate in the other
and same-id nodes carry equal `data`, `computeDiff` reports no added,
removed, or modified entities — fields outside `data` (such as
`position`) are never consulted. -/
theorem computeDiff_depends_only_on_data (s1 s2 : Schema)
    (h1 : ∀ n ∈ s1.nodes, ∃ m ∈ s2.nodes, m.id = n.id)
    (h2 : ∀ m ∈ s2.nodes, ∃ n ∈ s1.nodes, n.id = m.id)
    (h3 : ∀ n ∈ s1.nodes, ∀ m ∈ s2.nodes, n.id = m.id → n.data = m.data) :
    (computeDiff s1 s2).nodesAdded = [] ∧ (computeDiff s1 s2).nodesRemoved = []
    ∧ (computeDiff s1 s2).nodesModified = [] := by
  refine ⟨?_, ?_, ?_⟩
  · simp only [computeDiff]
    rw [List.filter_eq_nil_iff]
    intro m hm
    obtain ⟨n, hn, hid⟩ := h2 m hm
    have hs : (jsMapGet s1.nodes m.id).isSome :=
      (jsMapGet_isSome_iff _ _).mpr ⟨n, hn, hid⟩
    obtain ⟨x, hx⟩ := Option.isSome_iff_exists.mp hs
    simp [hx]
  · simp only [computeDiff]
    rw [List.filter_eq_nil_iff]
    intro n hn
    obtain ⟨m, hm, hid⟩ := h1 n hn
    have hs : (jsMapGet s2.nodes n.id).isSome :=
      (jsMapGet_isSome_iff _ _).mpr ⟨m, hm, hid⟩
    obtain ⟨x, hx⟩ := Option.isSome_iff_exists.mp hs
    simp [hx]
  · simp only [computeDiff]
    rw [List.filterMap_eq_nil_iff]
    intro m hm
    obtain ⟨n, hn, hid⟩ := h2 m hm
    have hs : (jsMapGet s1.nodes m.id).isSome :=
      (jsMapGet_isSome_iff _ _).mpr ⟨n, hn, hid⟩
    obtain ⟨n1, hget⟩ := Option.isSome_iff_exists.mp hs
    obtain ⟨hmem, hid1⟩ := jsMapGet_eq_some _ _ _ hget
    rw [hget]
    simp [h3 n1 hmem m hm hid1]

/-- C10 (witness): moving a node on the canvas (same `data`, different
`position`) produces an empty entity change set. -/
theorem computeDiff_depends_only_on_data_witness :
    (computeDiff ⟨[posNode1], []⟩ ⟨[posNode2], []⟩).nodesAdded = []
    ∧ (computeDiff ⟨[posNode1], []⟩ ⟨[posNode2], []⟩).nodesRemoved = []
    ∧ (computeDiff ⟨[posNode1], []⟩ ⟨[posNode2], []⟩).nodesModified = [] :=
  computeDiff_depends_only_on_data _ _ (by decide) (by decide) (by decide)

/-! ## C8 — same normalized dialect is rejected -/

/-- C8: whenever the two dialect name strings normalize to the same
canonical tag, `migrateSchema` fails with the invalid-request error and
returns no DDL, whatever the schema and the collaborator outcome. -/
theorem same_normalized_dialect_rejected (ai : Option MigrationResult) (schema : Schema)
    (src tgt : String) (h : normalizeDbType src = normalizeDbType tgt) :
    migrateSchema ai schema src tgt =
      .error "Failed to migrate schema: Source and target database types cannot be the same" := by
  simp [migrateSchema, h, wrapMigrate]

/-- C8 (witness): `"MongoDB"` and `"mongo"` normalize to the same tag
and the migration is rejected. -/
theorem same_normalized_dialect_rejected_witness :
    migrateSchema none demoSchema "MongoDB" "mongo" =
      .error "Failed to migrate schema: Source and target database types cannot be the same" :=
  same_normalized_dialect_rejected none demoSchema "MongoDB" "mongo" (by decide)

/-! ## C2 — conversion strategy decision -/

/-- C2: the `useAI` decision of `migrateSchema` is false — i.e. the
deterministic table-driven path is taken — exactly when a type-mapping
table exists for the normalized pair, neither endpoint is `mongo`, the
schema has at most 10 relationships and at most 15 entities; and past
the distinct-dialect precondition `migrateSchema` dispatches on that
decision to the mapping path or the AI path. -/
theorem migration_strategy_decision :
    (∀ (schema : Schema) (ns nt : String),
      useAI schema ns nt = false ↔
        ((lookupPair ns nt).isSome = true ∧ ns ≠ "mongo" ∧ nt ≠ "mongo"
          ∧ schema.edges.length ≤ 10 ∧ schema.nodes.length ≤ 15))
    ∧ (∀ (ai : Option MigrationResult) (schema : Schema) (src tgt : String),
        normalizeDbType src ≠ normalizeDbType tgt →
        (useAI schema (normalizeDbType src) (normalizeDbType tgt) = false →
          migrateSchema ai schema src tgt =
            wrapMigrate (migrateWithMapping schema (normalizeDbType src) (normalizeDbType tgt)))
        ∧ (useAI schema (normalizeDbType src) (normalizeDbType tgt) = true →
          migrateSchema ai schema src tgt =
            wrapMigrate (migrateWithAI ai schema (normalizeDbType src) (normalizeDbType tgt)))) := by
  constructor
  · intro schema ns nt
    simp only [useAI, needsAIAssistance, Bool.or_eq_false_iff, Bool.not_eq_eq_eq_not,
      Bool.not_false]
    constructor
    · rintro ⟨hpair, hrest⟩
      by_cases hm : ns = "mongo" ∨ nt = "mongo"
      · rw [if_pos hm] at hrest
        simp at hrest
      · rw [if_neg hm] at hrest
        by_cases hs : schema.edges.length > 10 ∨ schema.nodes.length > 15
        · rw [if_pos hs] at hrest
          simp at hrest
        · push_neg at hm hs
          exact ⟨hpair, hm.1, hm.2, by omega, by omega⟩
    · rintro ⟨hpair, hns, hnt, hedges, hnodes⟩
      refine ⟨hpair, ?_⟩
      rw [if_neg (by tauto), if_neg (by omega)]
  · intro ai schema src tgt hne
    constructor
    · intro hdet
      simp [migrateSchema, hne, hdet]
    · intro hai
      simp [migrateSchema, hne, hai]

/-- C2 (witness): a small relational pair takes the deterministic path,
and `migrateSchema` on it reduces to the mapping path. -/
theorem migration_strategy_decision_witness :
    useAI ⟨[], []⟩ "postgres" "mysql" = false
    ∧ migrateSchema none ⟨[], []⟩ "postgres" "MySQL" =
        wrapMigrate (migrateWithMapping ⟨[], []⟩ (normalizeDbType "postgres")
          (normalizeDbType "MySQL")) :=
  ⟨(migration_strategy_decision.1 ⟨[], []⟩ "postgres" "mysql").mpr (by decide),
   (migration_strategy_decision.2 none ⟨[], []⟩ "postgres" "MySQL" (by decide)).1 (by decide)⟩

/-! ## C4 — deterministic rendering rules -/

/-- C4: on the deterministic path, a non-primary-key attribute whose
uppercased type has no table entry maps to `VARCHAR(255)`; a
primary-key attribute gets the target identity idiom (`SERIAL`,
`INT AUTO_INCREMENT`, `INT IDENTITY(1,1)`); a unique non-PK attribute
contributes a `UNIQUE` constraint; the column definition of a
non-nullable non-PK attribute ends in `NOT NULL`; a `FOREIGN KEY` constraint is
emitted for every relationship whose source is the rendered entity and
whose target entity resolves. -/
theorem deterministic_rendering_rules :
    (∀ (mapping : List (String × String)) (targetType : String) (col : Column),
      col.isPK = false → assocLookup mapping (jsUpper col.type) = none →
      mappedTypeFor mapping targetType col = "VARCHAR(255)")
    ∧ (∀ (mapping : List (String × String)) (col : Column), col.isPK = true →
      mappedTypeFor mapping "postgres" col = "SERIAL"
      ∧ mappedTypeFor mapping "mysql" col = "INT AUTO_INCREMENT"
      ∧ mappedTypeFor mapping "sql" col = "INT IDENTITY(1,1)")
    ∧ (∀ (schema : Schema) (node : Node) (col : Column),
      col ∈ node.data.columns → col.isUnique = true → col.isPK = false →
      ("  UNIQUE (" ++ col.name ++ ")") ∈ constraintsOf schema node)
    ∧ (∀ (mapping : List (String × String)) (targetType : String) (col : Column),
      col.isNullable = false → col.isPK = false →
      colDefFor mapping targetType col =
        "  " ++ col.name ++ " " ++ mappedTypeFor mapping targetType col ++ " NOT NULL")
    ∧ (∀ (schema : Schema) (node : Node) (edge : Edge) (targetNode : Node),
      edge ∈ schema.edges → edge.source = node.id →
      schema.nodes.find? (fun n => n.id = edge.target) = some targetNode →
      ("  FOREIGN KEY (" ++ removeFirst "-left" (removeFirst "-right" edge.sourceHandle)
        ++ ") REFERENCES " ++ tableNameOf targetNode.data.label ++ "("
        ++ removeFirst "-right" (removeFirst "-left" edge.targetHandle) ++ ")")
        ∈ constraintsOf schema node) := by
  refine ⟨?_, ?_, ?_, ?_, ?_⟩
  · intro mapping targetType col hpk hlook
    simp [mappedTypeFor, hpk, hlook]
  · intro mapping col hpk
    refine ⟨?_, ?_, ?_⟩ <;> simp [mappedTypeFor, hpk]
  · intro schema node col hmem huniq hpk
    exact List.mem_append_left _
      (List.mem_filterMap.mpr ⟨col, hmem, by simp [huniq, hpk]⟩)
  · intro mapping targetType col hnull hpk
    simp [colDefFor, hnull, hpk]
  · intro schema node edge targetNode hmem hsrc hfind
    exact List.mem_append_right _
      (List.mem_filterMap.mpr ⟨edge, hmem, by simp [fkFor, hsrc, hfind]⟩)

/-- C4 (witness): each rendering rule applied to a concrete column,
node, or relationship of the two-table demo schema. -/
theorem deterministic_rendering_rules_witness :
    mappedTypeFor [] "postgres" geoCol = "VARCHAR(255)"
    ∧ mappedTypeFor [] "mysql" pkIdCol = "INT AUTO_INCREMENT"
    ∧ ("  UNIQUE (" ++ emailCol.name ++ ")") ∈ constraintsOf demoSchema userNode
    ∧ colDefFor [] "postgres" userIdCol =
        "  " ++ userIdCol.name ++ " " ++ mappedTypeFor [] "postgres" userIdCol ++ " NOT NULL"
    ∧ ("  FOREIGN KEY (" ++ removeFirst "-left" (removeFirst "-right" orderUserEdge.sourceHandle)
        ++ ") REFERENCES " ++ tableNameOf userNode.data.label ++ "("
        ++ removeFirst "-right" (removeFirst "-left" orderUserEdge.targetHandle) ++ ")")
        ∈ constraintsOf demoSchema orderNode := by
  obtain ⟨p1, p2, p3, p4, p5⟩ := deterministic_rendering_rules
  exact ⟨p1 [] "postgres" geoCol rfl rfl,
    (p2 [] pkIdCol rfl).2.1,
    p3 demoSchema userNode emailCol (by decide) rfl rfl,
    p4 [] "postgres" userIdCol rfl rfl,
    p5 demoSchema orderNode orderUserEdge userNode (by decide) rfl (by decide)⟩

/-! ## C5 — conversion totality -/

/-- Helper: when the dialect-pair table exists, the deterministic path
always succeeds. -/
theorem migrateWithMapping_ok (schema : Schema) (ns nt : String)
    (m : List (String × String)) (h : lookupPair ns nt = some m) :
    migrateWithMapping schema ns nt = .ok (migrateBody schema m nt) := by
  rw [lookupPair] at h
  obtain ⟨toTable, h1, h2⟩ := Option.bind_eq_some.mp h
  rw [migrateWithMapping, h1]
  simp [h2]

/-- C5 (counterexample): the empty model is valid and `sql` and
`postgres` are supported, distinct dialect tags, yet when the
collaborator fails, `migrateSchema` throws (the fallback reads
the `to` field of the absent `sql` entry of `TYPE_MAPPINGS`) instead of returning
DDL text. -/
theorem conversion_totality_fails_for_sql_source :
    validateSchema ⟨[], []⟩ = none
    ∧ migrateSchema none ⟨[], []⟩ "sql" "postgres" =
        .error "Failed to migrate schema: TypeError" :=
  ⟨by decide, rfl⟩

/-- C5 (amended): `migrateSchema` returns non-null DDL whenever a
type-mapping table exists for the normalized pair or the collaborator
succeeds — in particular unmapped attribute types never make it fail —
and a zero-entity model yields empty DDL text and an empty
mapping-explanation list whenever the result is not supplied by the
collaborator. -/
theorem conversion_totality_with_mapping_or_ai (ai : Option MigrationResult)
    (schema : Schema) (src tgt : String)
    (hne : normalizeDbType src ≠ normalizeDbType tgt)
    (h : (lookupPair (normalizeDbType src) (normalizeDbType tgt)).isSome ∨ ai.isSome) :
    (∃ r, migrateSchema ai schema src tgt = .ok r)
    ∧ (schema.nodes = [] → ai = none →
        migrateSchema ai schema src tgt = .ok ⟨"", []⟩) := by
  constructor
  · by_cases hai : useAI schema (normalizeDbType src) (normalizeDbType tgt) = true
    · cases ai with
      | some r =>
        exact ⟨r, by simp [migrateSchema, hne, hai, migrateWithAI, wrapMigrate]⟩
      | none =>
        rcases h with hp | hs
        · obtain ⟨m, hm⟩ := Option.isSome_iff_exists.mp hp
          refine ⟨migrateBody schema m (normalizeDbType tgt), ?_⟩
          simp [migrateSchema, hne, hai, migrateWithAI,
            migrateWithMapping_ok _ _ _ _ hm, wrapMigrate]
        · simp at hs
    · have hf : useAI schema (normalizeDbType src) (normalizeDbType tgt) = false := by
        revert hai
        cases useAI schema (normalizeDbType src) (normalizeDbType tgt) <;> simp
      have hp : (lookupPair (normalizeDbType src) (normalizeDbType tgt)).isSome = true := by
        rcases Bool.or_eq_false_iff.mp (by rwa [useAI] at hf) with ⟨h1, _⟩
        revert h1
        cases hv : (lookupPair (normalizeDbType src) (normalizeDbType tgt)).isSome <;> simp
      obtain ⟨m, hm⟩ := Option.isSome_iff_exists.mp hp
      refine ⟨migrateBody schema m (normalizeDbType tgt), ?_⟩
      simp [migrateSchema, hne, hf, migrateWithMapping_ok _ _ _ _ hm, wrapMigrate]
  · intro hnodes hainone
    subst hainone
    have hp : (lookupPair (normalizeDbType src) (normalizeDbType tgt)).isSome = true := by
      rcases h with hp | hs
      · exact hp
      · simp at hs
    obtain ⟨m, hm⟩ := Option.isSome_iff_exists.mp hp
    have hdet := migrateWithMapping_ok schema _ _ _ hm
    have hbody : migrateBody schema m (normalizeDbType tgt) = ⟨"", []⟩ := by
      rw [migrateBody, hnodes]
      rfl
    by_cases hai : useAI schema (normalizeDbType src) (normalizeDbType tgt) = true
    · simp [migrateSchema, hne, hai, migrateWithAI, hdet, hbody, wrapMigrate]
    · have hf : useAI schema (normalizeDbType src) (normalizeDbType tgt) = false := by
        revert hai
        cases useAI schema (normalizeDbType src) (normalizeDbType tgt) <;> simp
      simp [migrateSchema, hne, hf, hdet, hbody, wrapMigrate]

/-- C5 (witness): empty model, `mysql → postgres`, failed collaborator:
the migration returns empty DDL and an empty summary. -/
theorem conversion_totality_with_mapping_or_ai_witness :
    migrateSchema none ⟨[], []⟩ "mysql" "postgres" = .ok ⟨"", []⟩ :=
  (conversion_totality_with_mapping_or_ai none ⟨[], []⟩ "mysql" "postgres"
    (by decide) (Or.inl (by decide))).2 rfl rfl

/-! ## C6 and C7 — merge order and candidate relationships -/

/-- Helper: the node-merging loop never touches the accumulated edges. -/
theorem mergeNodes_allEdges (nodes : List Node) (st : MergeState) :
    (mergeNodes st nodes).allEdges = st.allEdges := by
  induction nodes generalizing st with
  | nil => rfl
  | cons node rest ih =>
    simp only [mergeNodes, List.foldl_cons] at ih ⊢
    rw [ih]
    split <;> rfl

/-- Helper: a display label occurs among the merged nodes iff it was
already accumulated or occurs in the fragment being merged. -/
theorem mergeNodes_label_mem (nodes : List Node) (st : MergeState) (l : String) :
    (∃ n ∈ (mergeNodes st nodes).allNodes, n.data.label = l) ↔
      (∃ n ∈ st.allNodes, n.data.label = l) ∨ ∃ m ∈ nodes, m.data.label = l := by
  induction nodes generalizing st with
  | nil => simp [mergeNodes]
  | cons node rest ih =>
    simp only [mergeNodes, List.foldl_cons] at ih ⊢
    rw [ih]
    by_cases hc : (st.allNodes.any fun n => n.data.label = node.data.label) = true
    · rw [if_pos hc]
      obtain ⟨n0, hn0, hlab⟩ := List.any_eq_true.mp hc
      replace hlab := of_decide_eq_true hlab
      constructor
      · rintro (h | ⟨m, hm, hml⟩)
        · exact Or.inl h
        · exact Or.inr ⟨m, List.mem_cons_of_mem _ hm, hml⟩
      · rintro (h | ⟨m, hm, hml⟩)
        · exact Or.inl h
        · rcases List.mem_cons.mp hm with rfl | hm2
          · exact Or.inl ⟨n0, hn0, hlab.trans hml⟩
          · exact Or.inr ⟨m, hm2, hml⟩
    · rw [if_neg hc]
      constructor
      · rintro (⟨n, hn, hnl⟩ | ⟨m, hm, hml⟩)
        · rcases List.mem_append.mp hn with hn1 | hn1
          · exact Or.inl ⟨n, hn1, hnl⟩
          · rcases List.mem_singleton.mp hn1 with rfl
            exact Or.inr ⟨node, List.mem_cons_self _ _, hnl⟩
        · exact Or.inr ⟨m, List.mem_cons_of_mem _ hm, hml⟩
      · rintro (⟨n, hn, hnl⟩ | ⟨m, hm, hml⟩)
        · exact Or.inl ⟨n, List.mem_append_left _ hn, hnl⟩
        · rcases List.mem_cons.mp hm with rfl | hm2
          · exact Or.inl ⟨_, List.mem_append_right _ (List.mem_singleton.mpr rfl), hml⟩
          · exact Or.inr ⟨m, hm2, hml⟩

/-- Helper: label-membership characterization of the whole file fold. -/
theorem parseModels_fold_label_mem (parseOf : String → Option Schema)
    (files : List IngestFile) (st : MergeState) (l : String) :
    (∃ n ∈ (files.foldl (mergeFile parseOf) st).allNodes, n.data.label = l) ↔
      (∃ n ∈ st.allNodes, n.data.label = l)
      ∨ ∃ f ∈ files, ∃ frag, parseOf f.content = some frag
          ∧ ∃ m ∈ frag.nodes, m.data.label = l := by
  induction files generalizing st with
  | nil => simp
  | cons f rest ih =>
    rw [List.foldl_cons, ih]
    simp only [List.mem_cons]
    cases hp : parseOf f.content with
    | none =>
      rw [show mergeFile parseOf st f = st by rw [mergeFile, hp]]
      constructor
      · rintro (h | ⟨f1, hf1, hfrag⟩)
        · exact Or.inl h
        · exact Or.inr ⟨f1, Or.inr hf1, hfrag⟩
      · rintro (h | ⟨f1, hf1 | hf1, frag, hfrag, hm⟩)
        · exact Or.inl h
        · subst hf1
          rw [hp] at hfrag
          cases hfrag
        · exact Or.inr ⟨f1, hf1, frag, hfrag, hm⟩
    | some frag =>
      rw [show mergeFile parseOf st f = mergeEdges (mergeNodes st frag.nodes) frag.edges
            by rw [mergeFile, hp],
          show (mergeEdges (mergeNodes st frag.nodes) frag.edges).allNodes
              = (mergeNodes st frag.nodes).allNodes from rfl,
          mergeNodes_label_mem]
      constructor
      · rintro ((h | h) | ⟨f1, hf1, hfrag⟩)
        · exact Or.inl h
        · exact Or.inr ⟨f, Or.inl rfl, frag, hp, h⟩
        · exact Or.inr ⟨f1, Or.inr hf1, hfrag⟩
      · rintro (h | ⟨f1, hf1 | hf1, frag1, hfrag1, hm⟩)
        · exact Or.inl (Or.inl h)
        · subst hf1
          rw [hp] at hfrag1
          cases hfrag1
          exact Or.inl (Or.inr hm)
        · exact Or.inr ⟨f1, hf1, frag1, hfrag1, hm⟩

/-- Helper: label membership in the output of `parseModels`. -/
theorem parseModels_label_mem (parseOf : String → Option Schema)
    (files : List IngestFile) (l : String) :
    (∃ n ∈ (parseModels parseOf files).nodes, n.data.label = l) ↔
      ∃ f ∈ files, ∃ frag, parseOf f.content = some frag
        ∧ ∃ m ∈ frag.nodes, m.data.label = l := by
  rw [show (parseModels parseOf files).nodes
        = (files.foldl (mergeFile parseOf) ⟨[], [], [], 1⟩).allNodes from rfl,
      parseModels_fold_label_mem]
  simp

/-- C6 (counterexample): two files, each declaring one model;
swapping their order changes which entity gets which allocated id, so
the merged entity sets are different sets. -/
theorem merge_order_changes_entity_ids :
    ∃ n ∈ (parseModels demoParse [fileA, fileB]).nodes,
      n ∉ (parseModels demoParse [fileB, fileA]).nodes := by
  decide

/-- C6 (amended): ingesting the same file set in any order yields the
same set of entity display names (first-occurrence de-duplication makes
the label set order-independent), but allocated ids, positions, the
surviving body of duplicated labels, and resolved relationship
endpoints may depend on the file order. -/
theorem merge_label_set_order_invariant (parseOf : String → Option Schema)
    (files1 files2 : List IngestFile) (hperm : files1.Perm files2) (l : String) :
    ((∃ n ∈ (parseModels parseOf files1).nodes, n.data.label = l) ↔
      ∃ n ∈ (parseModels parseOf files2).nodes, n.data.label = l) := by
  rw [parseModels_label_mem, parseModels_label_mem]
  constructor
  · rintro ⟨f, hf, hrest⟩
    exact ⟨f, hperm.mem_iff.mp hf, hrest⟩
  · rintro ⟨f, hf, hrest⟩
    exact ⟨f, hperm.mem_iff.mpr hf, hrest⟩

/-- C6 (witness): the label `A` is ingested under both file orders. -/
theorem merge_label_set_order_invariant_witness :
    ((∃ n ∈ (parseModels demoParse [fileA, fileB]).nodes, n.data.label = "A") ↔
      ∃ n ∈ (parseModels demoParse [fileB, fileA]).nodes, n.data.label = "A") :=
  merge_label_set_order_invariant demoParse [fileA, fileB] [fileB, fileA]
    (List.Perm.swap fileB fileA []) "A"

/-- C7 (counterexample): a candidate relationship both of whose
endpoint labels resolve to no entity is kept verbatim in the merged
output — it is not dropped as the claim states. -/
theorem unresolved_edge_kept_verbatim :
    ghostFragEdge ∈ (parseModels demoParse [fileX]).edges
    ∧ (parseModels demoParse [fileX]).nodes = [] := by
  decide

/-- Helper: edge count of the whole file fold. -/
theorem parseModels_fold_edges_len (parseOf : String → Option Schema)
    (files : List IngestFile) (st : MergeState) :
    (files.foldl (mergeFile parseOf) st).allEdges.length =
      st.allEdges.length
        + (files.map (fun f =>
            match parseOf f.content with
            | some frag => frag.edges.length
            | none => 0)).sum := by
  induction files generalizing st with
  | nil => simp
  | cons f rest ih =>
    rw [List.foldl_cons, ih, List.map_cons, List.sum_cons]
    cases hp : parseOf f.content with
    | none =>
      rw [show mergeFile parseOf st f = st by rw [mergeFile, hp]]
      simp
    | some frag =>
      rw [show mergeFile parseOf st f = mergeEdges (mergeNodes st frag.nodes) frag.edges
            by rw [mergeFile, hp],
          show (mergeEdges (mergeNodes st frag.nodes) frag.edges).allEdges
              = (mergeNodes st frag.nodes).allEdges ++ frag.edges.map (fun edge =>
                  { edge with
                      source := (assocLookup (mergeNodes st frag.nodes).nodeIdMap edge.source).getD
                        edge.source
                      target := (assocLookup (mergeNodes st frag.nodes).nodeIdMap edge.target).getD
                        edge.target }) from rfl,
          List.length_append, List.length_map, mergeNodes_allEdges]
      simp
      omega

/-- C7 (amended): every candidate relationship of every recognized file
appears in the merged output (endpoints re-mapped when they resolve and
kept verbatim otherwise); none is dropped and the merge never fails. -/
theorem merge_keeps_every_candidate_edge (parseOf : String → Option Schema)
    (files : List IngestFile) :
    (parseModels parseOf files).edges.length =
      (files.map (fun f =>
        match parseOf f.content with
        | some frag => frag.edges.length
        | none => 0)).sum := by
  have h := parseModels_fold_edges_len parseOf files ⟨[], [], [], 1⟩
  simpa using h
